import Mathlib

/-!
Shallow embedding of the AWS SSO credential-refresh core of the repository
(`src/packages/proc-manager/src/index.tsx`), and proofs about the claims
of its specification.

Modelling conventions:
* Machine time (JavaScript `Date.now()`, `Date.getTime()`) is a `Nat`
  counting milliseconds since the epoch.  `new Date(x)` / `toISOString` /
  JSON round trips on dates are modelled as the identity on that instant:
  the serialisation produced by `toISOString` is always a non-empty,
  reparsable string representing the same millisecond.
* A file system holding JSON token-cache files is a map
  `String → Option CacheFile` from path to parsed content; the constant
  cache-directory prefix (`~/.aws/sso/cache/`) is the same on the read and
  the write side and is omitted from the modelled path.
* The parsed INI credentials store is a map from section name to section,
  a section being a map from key to value.  The external `ini` npm package
  (stringify/parse, a black box collaborator per the spec, section 1) is
  modelled as the identity between the in-memory map and the file, so
  `writeCredentials` is a read-modify-write on that map.
* The identity provider (AWS SSO OIDC) is an oracle: registration and
  device-authorization responses are explicit record arguments, and the
  `CreateToken` outcome of the k-th poll attempt is `responses k`.
* JavaScript truthiness is modelled explicitly: for an optional string,
  `none` and `some ""` are falsy; for an optional number, `none` and
  `some 0` are falsy (`x || d` is `jsOr x d` on numbers, `strOr x d` on
  strings).
* Fallible asynchronous calls return `Option`; a thrown-and-caught error
  is `none`.
-/

/-- JavaScript `x || d` for an optional number field of an API response:
the default applies when the field is absent or `0` (both falsy). -/
def jsOr (x : Option Nat) (d : Nat) : Nat :=
  match x with
  | none => d
  | some n => if n = 0 then d else n

/-- JavaScript `x || d` for an optional string: the default applies when
the field is absent or the empty string (both falsy). -/
def strOr (x : Option String) (d : String) : String :=
  match x with
  | none => d
  | some s => if s = "" then d else s

/-- JavaScript truthiness of an optional string: `undefined` and `""` are
falsy, every other string is truthy. -/
def strTruthy (x : Option String) : Bool :=
  match x with
  | none => false
  | some s => s != ""

/-- Truthy projection of an optional string: keeps the value exactly when
it is truthy (used for `...(x && { key: x })` object spreads). -/
def truthyOpt (x : Option String) : Option String :=
  match x with
  | none => none
  | some s => if s = "" then none else some s

/-- JavaScript `s.startsWith(p)`, computed on the character list so that
closed instances evaluate inside the kernel. -/
def jsStartsWith (s p : String) : Bool := p.data.isPrefixOf s.data

/-- Dropping the first `n` characters of a string (the effect of
JavaScript `s.replace(p, "")` when `s` starts with the `n`-character
prefix `p`, whose first occurrence is then at index 0), computed on the
character list so that closed instances evaluate inside the kernel. -/
def jsDrop (s : String) (n : Nat) : String := ⟨s.data.drop n⟩

-- ───────────────────────────────────────────────────────────────────────
-- Data model (interfaces of index.tsx, lines 857-897)
-- ───────────────────────────────────────────────────────────────────────

/-- `interface SSOProfile` (index.tsx lines 857-865). -/
structure SSOProfile where
  name : String
  ssoStartUrl : String
  ssoAccountId : String
  ssoRoleName : String
  ssoRegion : String
  region : Option String
  ssoSession : Option String
deriving DecidableEq, Repr

/-- `interface AWSCredentials` (index.tsx lines 875-880).  `expiration`
is a millisecond timestamp. -/
structure AWSCredentials where
  accessKeyId : String
  secretAccessKey : String
  sessionToken : Option String
  expiration : Option Nat
deriving DecidableEq, Repr

/-- `interface CachedToken` (index.tsx lines 985-988): `expiresAt` is a
millisecond timestamp. -/
structure CachedToken where
  accessToken : String
  expiresAt : Nat
deriving DecidableEq, Repr

/-- `interface DeviceAuthInfo` (index.tsx lines 882-890): `expiresAt` in
milliseconds since the epoch, `interval` in seconds. -/
structure DeviceAuthInfo where
  verificationUri : String
  userCode : String
  deviceCode : String
  clientId : String
  clientSecret : String
  expiresAt : Nat
  interval : Nat
deriving DecidableEq, Repr

/-- `interface TokenInfo` (index.tsx lines 1119-1122). -/
structure TokenInfo where
  accessToken : String
  expiresAt : Nat
deriving DecidableEq, Repr

-- ───────────────────────────────────────────────────────────────────────
-- SSO token cache (index.tsx lines 985-1008 and 1124-1152)
-- ───────────────────────────────────────────────────────────────────────

/-- Parsed content of one JSON file in the SSO cache directory.  All
fields are optional because `findCachedToken` reads arbitrary JSON; the
`expiresAt` of a present field is the parsed millisecond instant of a
non-empty ISO-8601 string (the only form the writer produces). -/
structure CacheFile where
  startUrl : Option String
  region : Option String
  accessToken : Option String
  expiresAt : Option Nat
deriving DecidableEq, Repr

/-- Cache file name used by both `findCachedToken` (lines 993-995) and
`saveSSOTokenToCache` (lines 1134-1136), which contain the identical
expression: the hash of `profile.ssoSession ?? profile.ssoStartUrl`
(nullish coalescing: an empty-string session name is kept), suffixed
with `".json"`.  `hash` abstracts SHA-1 hex: the theorems hold for every
function `String → String`, in particular for SHA-1. -/
def cacheFileName (hash : String → String) (profile : SSOProfile) : String :=
  hash (profile.ssoSession.getD profile.ssoStartUrl) ++ ".json"

/-- `findCachedToken` (index.tsx lines 990-1008): reads the cache file for
the profile's key and returns the token when the JSON is structurally
valid, i.e. `content.accessToken && content.expiresAt` is truthy.  Any
read failure (missing file) is caught and returns `none`.  Note: there is
no expiry comparison here. -/
def findCachedToken (hash : String → String) (fs : String → Option CacheFile)
    (profile : SSOProfile) : Option CachedToken :=
  match fs (cacheFileName hash profile) with
  | none => none
  | some content =>
    match content.accessToken, content.expiresAt with
    | some a, some e => if a = "" then none else some ⟨a, e⟩
    | _, _ => none

/-- `saveSSOTokenToCache` (index.tsx lines 1124-1152): writes the
AWS-CLI-compatible record `{ startUrl, region, accessToken, expiresAt }`
under the same hash-derived file name, overwriting the previous content
of that file and leaving every other path untouched. -/
def saveSSOTokenToCache (hash : String → String) (fs : String → Option CacheFile)
    (profile : SSOProfile) (tokenInfo : TokenInfo) : String → Option CacheFile :=
  fun path =>
    if path = cacheFileName hash profile then
      some ⟨some profile.ssoStartUrl, some profile.ssoRegion,
            some tokenInfo.accessToken, some tokenInfo.expiresAt⟩
    else fs path

-- ───────────────────────────────────────────────────────────────────────
-- Credentials store (index.tsx lines 956-966)
-- ───────────────────────────────────────────────────────────────────────

/-- One parsed INI section: a finite map from key to value, modelled as a
function. -/
def CredSection : Type := String → Option String

/-- The parsed credentials store: section name to section. -/
def CredStore : Type := String → Option CredSection

/-- `writeCredentials` (index.tsx lines 956-966): parses the existing
credentials file, replaces the section of `profileName` with an object
holding exactly `aws_access_key_id`, `aws_secret_access_key` and, when
`credentials.sessionToken` is truthy (the `...(x && { key: x })` spread),
`aws_session_token`; then stringifies the result back.  The `ini`
stringify/parse pair is the identity on this map (black box). -/
def writeCredentials (store : CredStore) (profileName : String)
    (credentials : AWSCredentials) : CredStore :=
  fun sectionName =>
    if sectionName = profileName then
      some (fun key =>
        if key = "aws_access_key_id" then some credentials.accessKeyId
        else if key = "aws_secret_access_key" then some credentials.secretAccessKey
        else if key = "aws_session_token" then truthyOpt credentials.sessionToken
        else none)
    else store sectionName

-- ───────────────────────────────────────────────────────────────────────
-- Role-credential exchange and refreshProfile (index.tsx 1202-1231, 1259-1276)
-- ───────────────────────────────────────────────────────────────────────

/-- Result record of `refreshProfile` (index.tsx line 1261):
`{ success: boolean; error?: string; needsLogin?: boolean }`.  An absent
optional boolean is `false`, an absent error is `none`. -/
structure RefreshResult where
  success : Bool
  error : Option String
  needsLogin : Bool
deriving DecidableEq, Repr

/-- `refreshProfile` (index.tsx lines 1259-1276).  `getCreds` is the
`getCredentialsWithToken` collaborator (lines 1202-1231): the
`GetRoleCredentials` API keyed by profile and access token, `none` on any
failure.  `now` is the instant of the `new Date()` comparison.  Returns
the result record together with the credentials-file write performed on
success (profile name and credentials), mirroring the
`writeCredentials(profile.name, credentials)` call. -/
def refreshProfile (hash : String → String) (fs : String → Option CacheFile)
    (getCreds : SSOProfile → String → Option AWSCredentials) (now : Nat)
    (profile : SSOProfile) : RefreshResult × Option (String × AWSCredentials) :=
  match findCachedToken hash fs profile with
  | none => (⟨false, none, true⟩, none)
  | some cachedToken =>
    if cachedToken.expiresAt ≤ now then (⟨false, none, true⟩, none)
    else
      match getCreds profile cachedToken.accessToken with
      | none => (⟨false, none, true⟩, none)
      | some credentials => (⟨true, none, false⟩, some (profile.name, credentials))

-- ───────────────────────────────────────────────────────────────────────
-- Device authorization start (index.tsx lines 1076-1117)
-- ───────────────────────────────────────────────────────────────────────

/-- Response of the `RegisterClient` API call (the fields the code
consults). -/
structure RegisterResponse where
  clientId : Option String
  clientSecret : Option String
deriving DecidableEq, Repr

/-- Response of the `StartDeviceAuthorization` API call (the fields the
code consults; `expiresIn` and `interval` in seconds). -/
structure StartAuthResponse where
  verificationUriComplete : Option String
  deviceCode : Option String
  userCode : Option String
  expiresIn : Option Nat
  interval : Option Nat
deriving DecidableEq, Repr

/-- `startDeviceAuthorization` (index.tsx lines 1076-1117): returns
`none` when the registration response misses a truthy client id or
secret, or the authorization response misses a truthy verification URI,
device code, or user code; otherwise builds the session with
`expiresAt = now + (expiresIn || 600) * 1000` and
`interval = interval || 5`. -/
def startDeviceAuthorization (reg : RegisterResponse) (auth : StartAuthResponse)
    (now : Nat) : Option DeviceAuthInfo :=
  if strTruthy reg.clientId && strTruthy reg.clientSecret then
    if strTruthy auth.verificationUriComplete && strTruthy auth.deviceCode
        && strTruthy auth.userCode then
      some ⟨auth.verificationUriComplete.getD "", auth.userCode.getD "",
            auth.deviceCode.getD "", reg.clientId.getD "", reg.clientSecret.getD "",
            now + jsOr auth.expiresIn 600 * 1000, jsOr auth.interval 5⟩
    else none
  else none

-- ───────────────────────────────────────────────────────────────────────
-- Token polling loop (index.tsx lines 1154-1200)
-- ───────────────────────────────────────────────────────────────────────

/-- One outcome of a `CreateToken` attempt: either the promise resolves
(`ok` with the optional `accessToken` and `expiresIn` fields) or it
throws one of the named exceptions of the catch block. -/
inductive PollResponse where
  | ok (accessToken : Option String) (expiresIn : Option Nat)
  | errPending
  | errSlowDown
  | errExpiredToken
  | errAccessDenied
  | errOther
deriving DecidableEq, Repr

/-- Which `return` of `pollForToken` fired.  `token` is the success
return (line 1175), `deniedOrExpired` the `return null` for
`ExpiredTokenException` / `AccessDeniedException` (line 1193), `failed`
the unknown-error `return null` (line 1196), and `timedOut` the
`return null` after the `while` when the wall clock reached the
device-auth expiry (line 1199) — the spec's `Expired` state. -/
inductive PollOutcome where
  | token (t : TokenInfo)
  | deniedOrExpired
  | failed
  | timedOut
deriving DecidableEq, Repr

/-- The `while` loop of `pollForToken`, instrumented with the trace of
sleeps (milliseconds, in order).  `R k` is the outcome of the k-th
`CreateToken` attempt; `i` the poll interval in seconds; `w` the
`maxWaitMs` computed at entry; `t` the `startTime`; `elapsed` the sum of
sleeps so far (`Date.now() - startTime`: API calls are instantaneous in
the model, only `setTimeout` advances the clock); `acc` the reversed
sleep trace.  `fuel` bounds the number of loop iterations so the model
is total: `none` models a run that exceeds the bound, and the
`pollForToken` wrapper below supplies fuel that is proved sufficient
whenever the interval is at least one second (`pollLoop_terminates`). -/
def pollLoop (R : Nat → PollResponse) (i w t : Nat) :
    Nat → Nat → Nat → List Nat → Option (PollOutcome × List Nat)
  | 0, _, _, _ => none
  | fuel+1, elapsed, k, acc =>
    if elapsed < w then
      match R k with
      | PollResponse.ok tokOpt ex =>
        match tokOpt with
        | some s =>
          if s = "" then pollLoop R i w t fuel elapsed (k+1) acc
          else some (PollOutcome.token ⟨s, t + elapsed + jsOr ex 28800 * 1000⟩,
                     acc.reverse)
        | none => pollLoop R i w t fuel elapsed (k+1) acc
      | PollResponse.errPending =>
        pollLoop R i w t fuel (elapsed + i * 1000) (k+1) (i * 1000 :: acc)
      | PollResponse.errSlowDown =>
        pollLoop R i w t fuel (elapsed + (i + 5) * 1000) (k+1) ((i + 5) * 1000 :: acc)
      | PollResponse.errExpiredToken => some (PollOutcome.deniedOrExpired, acc.reverse)
      | PollResponse.errAccessDenied => some (PollOutcome.deniedOrExpired, acc.reverse)
      | PollResponse.errOther => some (PollOutcome.failed, acc.reverse)
    else some (PollOutcome.timedOut, acc.reverse)

/-- `pollForToken` (index.tsx lines 1154-1200): `startTime = now`,
`maxWaitMs = deviceAuth.expiresAt - now` (clamped at 0, matching the
JavaScript loop never running on a negative budget), then the loop with
`elapsed = 0` on attempt 0.  A resolved response with a truthy
`accessToken` returns the token with expiry
`Date.now() + (expiresIn || 28800) * 1000`; `AuthorizationPending` sleeps
`interval` seconds, `SlowDown` sleeps `interval + 5` seconds (the
interval field itself is never changed), `ExpiredToken`/`AccessDenied`
and unknown errors return immediately, and reaching the expiry exits the
loop. -/
def pollForToken (R : Nat → PollResponse) (deviceAuth : DeviceAuthInfo)
    (now : Nat) : Option (PollOutcome × List Nat) :=
  pollLoop R deviceAuth.interval (deviceAuth.expiresAt - now) now
    (deviceAuth.expiresAt - now + 2) 0 0 []

/-- The sleep one poll response causes, as a function of that response
alone (the two `setTimeout` sites of the catch block): `interval`
seconds after authorization-pending, `interval + 5` seconds after
slow-down, and no sleep for any other outcome. -/
def responseSleep (i : Nat) : PollResponse → Option Nat
  | PollResponse.errPending => some (i * 1000)
  | PollResponse.errSlowDown => some ((i + 5) * 1000)
  | _ => none

-- ───────────────────────────────────────────────────────────────────────
-- Login flow and refresh orchestration (index.tsx 1238-1257, 1567-1672)
-- ───────────────────────────────────────────────────────────────────────

/-- Result record of `performSSOLoginFlow`:
`{ success: boolean; error?: string }`. -/
structure FlowResult where
  success : Bool
  error : Option String
deriving DecidableEq, Repr

/-- `performSSOLoginFlow` (index.tsx lines 1238-1257): polls for the
token; on failure reports "Authorization failed or timed out"; on
success saves the token to the SSO cache, exchanges it for role
credentials (failure: "Failed to get credentials") and returns the
resulting cache state and the credentials-file write. -/
def performSSOLoginFlow (hash : String → String) (fs : String → Option CacheFile)
    (getCreds : SSOProfile → String → Option AWSCredentials)
    (R : Nat → PollResponse) (profile : SSOProfile) (deviceAuth : DeviceAuthInfo)
    (now : Nat) :
    FlowResult × (String → Option CacheFile) × Option (String × AWSCredentials) :=
  match pollForToken R deviceAuth now with
  | some (PollOutcome.token tokenInfo, _) =>
    let fs2 := saveSSOTokenToCache hash fs profile tokenInfo
    match getCreds profile tokenInfo.accessToken with
    | none => (⟨false, some "Failed to get credentials"⟩, fs2, none)
    | some creds => (⟨true, none⟩, fs2, some (profile.name, creds))
  | _ => (⟨false, some "Authorization failed or timed out"⟩, fs, none)

/-- One entry of the `results` state of `RefreshProgress`
(index.tsx line 1568): `{ name, success, error? }`. -/
structure ProfileOutcome where
  name : String
  success : Bool
  error : Option String
deriving DecidableEq, Repr

/-- The sequential refresh cycle of `RefreshProgress` (index.tsx lines
1567-1608 with `handleLoginComplete`, lines 1572-1576, and the
`useDeviceAuth` hook, lines 1411-1462).  For each profile in order the
effect calls `refreshProfile`; when it reports `needsLogin` the profile
becomes `pendingLogin` and the device-auth hook drives the login flow,
whose completion callback records the flow result and advances
`current`; otherwise the refresh result is recorded and `current`
advances directly.  `login p = none` models the hook's dead end: when
`startDeviceAuthorization` resolves to `null`, `setDeviceAuth` keeps
`deviceAuth = null`, the polling effect never starts, `onLoginComplete`
never fires, and the cycle stalls — the returned flag is the `done`
condition `current >= profiles.length && !pendingLogin` (line 1610),
`false` on a stall, and stalled runs record nothing for the pending
profile or any later one. -/
def refreshCycle (refresh : SSOProfile → RefreshResult)
    (login : SSOProfile → Option FlowResult) :
    List SSOProfile → List ProfileOutcome × Bool
  | [] => ([], true)
  | p :: rest =>
    let r := refresh p
    if r.needsLogin then
      match login p with
      | some lr =>
        let tail := refreshCycle refresh login rest
        (⟨p.name, lr.success, lr.error⟩ :: tail.1, tail.2)
      | none => ([], false)
    else
      let tail := refreshCycle refresh login rest
      (⟨p.name, r.success, r.error⟩ :: tail.1, tail.2)

-- ───────────────────────────────────────────────────────────────────────
-- Profile discovery (index.tsx lines 1014-1056)
-- ───────────────────────────────────────────────────────────────────────

/-- One parsed INI config section, restricted to the keys the discovery
code consults (`interface ConfigSection` is an open string map; unused
keys are irrelevant to every claim). -/
structure ConfigSection where
  sso_start_url : Option String
  sso_account_id : Option String
  sso_role_name : Option String
  sso_region : Option String
  region : Option String
  sso_session : Option String
deriving DecidableEq, Repr

/-- First pass of `discoverProfiles` (lines 1019-1023): the `Map` of
`sso-session` blocks keyed by name with `"sso-session "` (12 characters)
stripped; `Map.set` lets a later section override an earlier one with
the same name, hence the lookup in the reversed list. -/
def sessionsOf (config : List (String × ConfigSection)) : String → Option ConfigSection :=
  fun n =>
    (((config.filterMap fun sv =>
          if jsStartsWith sv.1 "sso-session " then some (jsDrop sv.1 12, sv.2) else none).reverse).find?
        fun sv => sv.1 == n).map Prod.snd

/-- The `else if` legacy branch of `discoverProfiles` (lines 1043-1052):
requires truthy inline `sso_start_url`, `sso_account_id` and
`sso_role_name`; `sso_region` falls back to `"us-east-1"` and `region`
is copied as-is. -/
def legacyProfileEntry (values : ConfigSection) (profileName : String) : Option SSOProfile :=
  match values.sso_start_url, values.sso_account_id, values.sso_role_name with
  | some url, some acc, some role =>
    if url = "" || acc = "" || role = "" then none
    else some ⟨profileName, url, acc, role, strOr values.sso_region "us-east-1",
               values.region, none⟩
  | _, _, _ => none

/-- The `sso_session` branch of `discoverProfiles` (lines 1030-1042):
requires the referenced session block to exist and truthy
`sso_account_id` / `sso_role_name` on the profile; the session's
`sso_start_url` falls back to `""` and its `sso_region` to
`"us-east-1"`. -/
def sessionProfileEntry (sessions : String → Option ConfigSection)
    (values : ConfigSection) (profileName ssn : String) : Option SSOProfile :=
  match sessions ssn with
  | some session =>
    match values.sso_account_id, values.sso_role_name with
    | some acc, some role =>
      if acc = "" || role = "" then none
      else some ⟨profileName, strOr session.sso_start_url "", acc, role,
                 strOr session.sso_region "us-east-1", values.region, some ssn⟩
    | _, _ => none
  | none => none

/-- Second-pass body of `discoverProfiles` (lines 1025-1053) for one
section: skip unless the section is `"default"` or starts with
`"profile "`; take the `sso_session` branch when that key is truthy,
the legacy branch otherwise. -/
def discoverEntry (sessions : String → Option ConfigSection)
    (sv : String × ConfigSection) : Option SSOProfile :=
  if jsStartsWith sv.1 "profile " || sv.1 == "default" then
    let profileName := if sv.1 == "default" then "default" else jsDrop sv.1 8
    match sv.2.sso_session with
    | some ssn =>
      if ssn = "" then legacyProfileEntry sv.2 profileName
      else sessionProfileEntry sessions sv.2 profileName ssn
    | none => legacyProfileEntry sv.2 profileName
  else none

/-- `discoverProfiles` (index.tsx lines 1014-1056) on the parsed config,
a list of sections in source order (`Object.entries` preserves insertion
order). -/
def discoverProfiles (config : List (String × ConfigSection)) : List SSOProfile :=
  config.filterMap (discoverEntry (sessionsOf config))

/-- Declarative form of the predicate `discoverProfiles` actually
implements, stated separately from the control flow so that
`discoverProfiles_filter_map` is a real characterisation: default or
profile-prefixed section, and either a truthy `sso_session` resolving to
an existing session block plus truthy account id and role name, or
truthy inline start URL, account id and role name. -/
def codeQualifies (sessions : String → Option ConfigSection)
    (sv : String × ConfigSection) : Bool :=
  (jsStartsWith sv.1 "profile " || sv.1 == "default") &&
  (match sv.2.sso_session with
   | some ssn =>
     if ssn = "" then
       strTruthy sv.2.sso_start_url && strTruthy sv.2.sso_account_id
         && strTruthy sv.2.sso_role_name
     else
       (sessions ssn).isSome && strTruthy sv.2.sso_account_id
         && strTruthy sv.2.sso_role_name
   | none =>
     strTruthy sv.2.sso_start_url && strTruthy sv.2.sso_account_id
       && strTruthy sv.2.sso_role_name)

/-- The profile a qualifying section produces (companion of
`codeQualifies`; junk on non-qualifying sections, which the filter
removes). -/
def mkDiscovered (sessions : String → Option ConfigSection)
    (sv : String × ConfigSection) : SSOProfile :=
  let profileName := if sv.1 == "default" then "default" else jsDrop sv.1 8
  match sv.2.sso_session with
  | some ssn =>
    if ssn = "" then
      ⟨profileName, sv.2.sso_start_url.getD "", sv.2.sso_account_id.getD "",
       sv.2.sso_role_name.getD "", strOr sv.2.sso_region "us-east-1", sv.2.region, none⟩
    else
      ⟨profileName, strOr ((sessions ssn).bind ConfigSection.sso_start_url) "",
       sv.2.sso_account_id.getD "", sv.2.sso_role_name.getD "",
       strOr ((sessions ssn).bind ConfigSection.sso_region) "us-east-1",
       sv.2.region, some ssn⟩
  | none =>
    ⟨profileName, sv.2.sso_start_url.getD "", sv.2.sso_account_id.getD "",
     sv.2.sso_role_name.getD "", strOr sv.2.sso_region "us-east-1", sv.2.region, none⟩

/-- Modelled from the spec wording of section 4.1 (the predicate claim C8
asserts `discoverProfiles` implements), for comparison with the code:
(a) an `sso_session` reference resolvable to a session block carrying a
start URL and region, together with account id and role name on the
profile, or (b) all four of start URL, account id, role name and region
inline. -/
def specQualifies (sessions : String → Option ConfigSection)
    (sv : String × ConfigSection) : Bool :=
  (jsStartsWith sv.1 "profile " || sv.1 == "default") &&
  ((match sv.2.sso_session with
    | some ssn =>
      (match sessions ssn with
       | some session => strTruthy session.sso_start_url && strTruthy session.sso_region
       | none => false)
      && strTruthy sv.2.sso_account_id && strTruthy sv.2.sso_role_name
    | none => false)
   || (strTruthy sv.2.sso_start_url && strTruthy sv.2.sso_account_id
       && strTruthy sv.2.sso_role_name && strTruthy sv.2.sso_region))

-- ───────────────────────────────────────────────────────────────────────
-- Concrete fixtures for witnesses, counterexamples and scenarios
-- ───────────────────────────────────────────────────────────────────────

/-- A concrete hash function for closed instances; the theorems quantify
over every `hash : String → String`. -/
def hashId : String → String := fun s => s

/-- A legacy (no session) profile fixture. -/
def profileU1 : SSOProfile := ⟨"p1", "u1", "acct", "role", "us-east-1", none, none⟩

/-- A second legacy profile with a different start URL (hence a different
cache key). -/
def profileU2 : SSOProfile := ⟨"p2", "u2", "acct", "role", "us-east-1", none, none⟩

/-- A cache state holding a stale token (expiry instant 5) for the
`u1` key only. -/
def fsStale : String → Option CacheFile :=
  fun path => if path = "u1.json" then some ⟨some "u1", some "us-east-1", some "tok", some 5⟩ else none

/-- A cache state holding a live token (expiry instant 100) for the
`u1` key only. -/
def fsLive : String → Option CacheFile :=
  fun path => if path = "u1.json" then some ⟨some "u1", some "us-east-1", some "tok", some 100⟩ else none

/-- Role-credential oracle that always fails. -/
def getCredsNone : SSOProfile → String → Option AWSCredentials := fun _ _ => none

/-- A device-auth session that expires 600 s after instant 0, base
interval 5 s. -/
def deviceAuth600 : DeviceAuthInfo := ⟨"v", "u", "dc", "ci", "cs", 600000, 5⟩

/-- A device-auth session whose expiry is exactly two base-interval
sleeps after instant 0 (10 s), base interval 5 s. -/
def deviceAuth10s : DeviceAuthInfo := ⟨"v", "u", "dc", "ci", "cs", 10000, 5⟩

/-- A short device-auth session (50 ms budget), base interval 5 s. -/
def deviceAuthShort : DeviceAuthInfo := ⟨"v", "u", "dc", "ci", "cs", 50, 5⟩

/-- Provider behaviour for claim C1's witness: pending, pending,
slow down, then success. -/
def respC1 : Nat → PollResponse :=
  fun k =>
    if k ≤ 1 then PollResponse.errPending
    else if k = 2 then PollResponse.errSlowDown
    else PollResponse.ok (some "tok") none

/-- Provider behaviour for claim C2's counterexample: slow down, pending,
then success. -/
def respC2 : Nat → PollResponse :=
  fun k =>
    if k = 0 then PollResponse.errSlowDown
    else if k = 1 then PollResponse.errPending
    else PollResponse.ok (some "tok") none

/-- Provider behaviour for claim C9's counterexample: an immediately
successful token exchange whose response carries `expiresIn: 0`. -/
def respZeroExpiry : Nat → PollResponse := fun _ => PollResponse.ok (some "t") (some 0)

/-- Provider behaviour that always denies. -/
def respDenied : Nat → PollResponse := fun _ => PollResponse.errAccessDenied

/-- Profiles `a`, `b`, `c` of the orchestrator scenario (claim C7):
`a` and `c` have live cached tokens in `fsABC`, `b` has none. -/
def profileA : SSOProfile := ⟨"a", "ua", "acct", "role", "us-east-1", none, none⟩

/-- Scenario profile `b` (no cached token, must log in). -/
def profileB : SSOProfile := ⟨"b", "ub", "acct", "role", "us-east-1", none, none⟩

/-- Scenario profile `c`. -/
def profileC : SSOProfile := ⟨"c", "uc", "acct", "role", "us-east-1", none, none⟩

/-- Cache state of the C7 scenario: live tokens for `a` and `c`,
nothing for `b`. -/
def fsABC : String → Option CacheFile :=
  fun path =>
    if path = "ua.json" then some ⟨some "ua", some "us-east-1", some "ta", some 1000⟩
    else if path = "uc.json" then some ⟨some "uc", some "us-east-1", some "tc", some 1000⟩
    else none

/-- Role-credential oracle of the C7 scenario: every exchange succeeds. -/
def getCredsOk : SSOProfile → String → Option AWSCredentials :=
  fun _ _ => some ⟨"AKIA", "SECRET", some "SESSTOK", none⟩

/-- Per-profile refresh behaviour of the C7 scenario at instant 0. -/
def refreshABC : SSOProfile → RefreshResult :=
  fun p => (refreshProfile hashId fsABC getCredsOk 0 p).1

/-- Per-profile login behaviour of the C7 scenario: the device flow runs
against a provider that denies authorization, so `b`'s login completes
with the flow's failure result. -/
def loginDeniedABC : SSOProfile → Option FlowResult :=
  fun p => some (performSSOLoginFlow hashId fsABC getCredsOk respDenied p deviceAuthShort 0).1

/-- Login behaviour where `startDeviceAuthorization` resolves to `null`
for every profile, so the completion callback never fires. -/
def loginNever : SSOProfile → Option FlowResult := fun _ => none

/-- Token fixture with an empty access token (claim C5's
counterexample): saving it succeeds but the reader's truthiness check
rejects the record. -/
def emptyToken : TokenInfo := ⟨"", 999⟩

/-- Credentials fixture with an empty (falsy) session token (claim C6's
counterexample). -/
def emptySessionCreds : AWSCredentials := ⟨"AK", "SK", some "", none⟩

/-- Config fixture for claim C8's counterexample: an inline profile
section carrying start URL, account id and role name but no
`sso_region`. -/
def configNoRegion : List (String × ConfigSection) :=
  [("profile y", ⟨some "u", some "acc", some "role", none, none, none⟩)]

-- ───────────────────────────────────────────────────────────────────────
-- Helper lemmas
-- ───────────────────────────────────────────────────────────────────────

/-- Loop-exit step: when the elapsed time has reached `maxWaitMs` the
loop condition fails and the timed-out return fires. -/
theorem pollLoop_step_timeout (R : Nat → PollResponse) (i w t fuel elapsed k : Nat)
    (acc : List Nat) (h : ¬ elapsed < w) :
    pollLoop R i w t (fuel + 1) elapsed k acc = some (PollOutcome.timedOut, acc.reverse) := by
  simp [pollLoop, h]

/-- Pending step: sleep `interval` seconds and retry. -/
theorem pollLoop_step_pending (R : Nat → PollResponse) (i w t fuel elapsed k : Nat)
    (acc : List Nat) (hw : elapsed < w) (hk : R k = PollResponse.errPending) :
    pollLoop R i w t (fuel + 1) elapsed k acc =
      pollLoop R i w t fuel (elapsed + i * 1000) (k + 1) (i * 1000 :: acc) := by
  simp [pollLoop, hw, hk]

/-- Slow-down step: sleep `interval + 5` seconds and retry. -/
theorem pollLoop_step_slowDown (R : Nat → PollResponse) (i w t fuel elapsed k : Nat)
    (acc : List Nat) (hw : elapsed < w) (hk : R k = PollResponse.errSlowDown) :
    pollLoop R i w t (fuel + 1) elapsed k acc =
      pollLoop R i w t fuel (elapsed + (i + 5) * 1000) (k + 1) ((i + 5) * 1000 :: acc) := by
  simp [pollLoop, hw, hk]

/-- Success step: a truthy access token returns with expiry
`now + (expiresIn || 28800) * 1000`. -/
theorem pollLoop_step_success (R : Nat → PollResponse) (i w t fuel elapsed k : Nat)
    (acc : List Nat) (a : String) (ex : Option Nat) (hw : elapsed < w)
    (hk : R k = PollResponse.ok (some a) ex) (ha : a ≠ "") :
    pollLoop R i w t (fuel + 1) elapsed k acc =
      some (PollOutcome.token ⟨a, t + elapsed + jsOr ex 28800 * 1000⟩, acc.reverse) := by
  simp [pollLoop, hw, hk, ha]

/-- While only pending and slow-down responses arrive, every loop
iteration advances the clock by at least one second, so any fuel
exceeding the remaining wait suffices and the loop exits through the
timed-out return. -/
theorem pollLoop_pending_timedOut (R : Nat → PollResponse) (i w t : Nat) (hi : 1 ≤ i)
    (hR : ∀ k, R k = PollResponse.errPending ∨ R k = PollResponse.errSlowDown) :
    ∀ fuel elapsed k acc, w - elapsed < fuel →
      ∃ sl, pollLoop R i w t fuel elapsed k acc = some (PollOutcome.timedOut, sl) := by
  intro fuel
  induction fuel with
  | zero => intro elapsed k acc h; exact absurd h (Nat.not_lt_zero _)
  | succ f ih =>
    intro elapsed k acc h
    by_cases hw : elapsed < w
    · rcases hR k with hk | hk
      · rw [pollLoop_step_pending R i w t f elapsed k acc hw hk]
        exact ih (elapsed + i * 1000) (k + 1) (i * 1000 :: acc) (by omega)
      · rw [pollLoop_step_slowDown R i w t f elapsed k acc hw hk]
        exact ih (elapsed + (i + 5) * 1000) (k + 1) ((i + 5) * 1000 :: acc) (by omega)
    · exact ⟨acc.reverse, pollLoop_step_timeout R i w t f elapsed k acc hw⟩

/-- Shape of the sleep trace of any completed run of the loop, from any
state: the sleeps recorded after the accumulator are exactly, in order,
the per-attempt sleeps `responseSleep` of the attempts consumed —
each sleep is a function of its own attempt's response alone. -/
theorem pollLoop_trace_shape (R : Nat → PollResponse) (i w t : Nat) :
    ∀ fuel elapsed k acc r sleeps,
      pollLoop R i w t fuel elapsed k acc = some (r, sleeps) →
      ∃ n, sleeps = acc.reverse
          ++ (List.range' k n).filterMap (fun j => responseSleep i (R j)) := by
  intro fuel
  induction fuel with
  | zero =>
    intro elapsed k acc r sleeps h
    exact absurd h (by simp [pollLoop])
  | succ f ih =>
    intro elapsed k acc r sleeps h
    by_cases hlt : elapsed < w
    · cases hk : R k with
      | ok tokOpt ex =>
        cases tokOpt with
        | some s =>
          by_cases hs : s = ""
          · have hstep : pollLoop R i w t (f + 1) elapsed k acc
                = pollLoop R i w t f elapsed (k + 1) acc := by
              simp [pollLoop, hlt, hk, hs]
            rw [hstep] at h
            obtain ⟨n, hn⟩ := ih elapsed (k + 1) acc r sleeps h
            refine ⟨n + 1, ?_⟩
            rw [hn, List.range'_succ]
            simp [List.filterMap_cons, hk, responseSleep]
          · rw [pollLoop_step_success R i w t f elapsed k acc s ex hlt hk hs] at h
            refine ⟨0, ?_⟩
            simp only [Option.some.injEq, Prod.mk.injEq] at h
            rw [← h.2]
            simp
        | none =>
          have hstep : pollLoop R i w t (f + 1) elapsed k acc
              = pollLoop R i w t f elapsed (k + 1) acc := by
            simp [pollLoop, hlt, hk]
          rw [hstep] at h
          obtain ⟨n, hn⟩ := ih elapsed (k + 1) acc r sleeps h
          refine ⟨n + 1, ?_⟩
          rw [hn, List.range'_succ]
          simp [List.filterMap_cons, hk, responseSleep]
      | errPending =>
        rw [pollLoop_step_pending R i w t f elapsed k acc hlt hk] at h
        obtain ⟨n, hn⟩ := ih (elapsed + i * 1000) (k + 1) (i * 1000 :: acc) r sleeps h
        refine ⟨n + 1, ?_⟩
        rw [hn, List.range'_succ]
        simp [List.filterMap_cons, hk, responseSleep, List.reverse_cons, List.append_assoc]
      | errSlowDown =>
        rw [pollLoop_step_slowDown R i w t f elapsed k acc hlt hk] at h
        obtain ⟨n, hn⟩ := ih (elapsed + (i + 5) * 1000) (k + 1) ((i + 5) * 1000 :: acc)
          r sleeps h
        refine ⟨n + 1, ?_⟩
        rw [hn, List.range'_succ]
        simp [List.filterMap_cons, hk, responseSleep, List.reverse_cons, List.append_assoc]
      | errExpiredToken =>
        have hstep : pollLoop R i w t (f + 1) elapsed k acc
            = some (PollOutcome.deniedOrExpired, acc.reverse) := by
          simp [pollLoop, hlt, hk]
        rw [hstep] at h
        refine ⟨0, ?_⟩
        simp only [Option.some.injEq, Prod.mk.injEq] at h
        rw [← h.2]
        simp
      | errAccessDenied =>
        have hstep : pollLoop R i w t (f + 1) elapsed k acc
            = some (PollOutcome.deniedOrExpired, acc.reverse) := by
          simp [pollLoop, hlt, hk]
        rw [hstep] at h
        refine ⟨0, ?_⟩
        simp only [Option.some.injEq, Prod.mk.injEq] at h
        rw [← h.2]
        simp
      | errOther =>
        have hstep : pollLoop R i w t (f + 1) elapsed k acc
            = some (PollOutcome.failed, acc.reverse) := by
          simp [pollLoop, hlt, hk]
        rw [hstep] at h
        refine ⟨0, ?_⟩
        simp only [Option.some.injEq, Prod.mk.injEq] at h
        rw [← h.2]
        simp
    · rw [pollLoop_step_timeout R i w t f elapsed k acc hlt] at h
      refine ⟨0, ?_⟩
      simp only [Option.some.injEq, Prod.mk.injEq] at h
      rw [← h.2]
      simp

/-- A JavaScript `x || d` default with a positive default is positive. -/
theorem jsOr_pos (x : Option Nat) (d : Nat) (hd : 0 < d) : 0 < jsOr x d := by
  cases x with
  | none => simpa [jsOr] using hd
  | some n =>
    by_cases hn : n = 0
    · simpa [jsOr, hn] using hd
    · simp [jsOr, hn]; omega

/-- Every session `startDeviceAuthorization` produces has a poll interval
of at least one second: `interval || 5` is positive.  This discharges the
interval hypothesis of the termination theorem for every device-auth
session the program can actually hold. -/
theorem startDeviceAuthorization_interval_pos (reg : RegisterResponse)
    (auth : StartAuthResponse) (now : Nat) (info : DeviceAuthInfo)
    (h : startDeviceAuthorization reg auth now = some info) : 1 ≤ info.interval := by
  unfold startDeviceAuthorization at h
  by_cases h1 : (strTruthy reg.clientId && strTruthy reg.clientSecret) = true
  · rw [if_pos h1] at h
    by_cases h2 : (strTruthy auth.verificationUriComplete && strTruthy auth.deviceCode
        && strTruthy auth.userCode) = true
    · rw [if_pos h2] at h
      have h3 := jsOr_pos auth.interval 5 (by omega)
      injection h with h
      subst h
      simpa using h3
    · rw [if_neg h2] at h
      exact Option.noConfusion h
  · rw [if_neg h1] at h
    exact Option.noConfusion h

/-- The legacy branch in declarative form: an entry is produced exactly
when all three inline fields are truthy. -/
theorem legacyProfileEntry_eq (values : ConfigSection) (pn : String) :
    legacyProfileEntry values pn =
      if strTruthy values.sso_start_url && strTruthy values.sso_account_id
          && strTruthy values.sso_role_name then
        some ⟨pn, values.sso_start_url.getD "", values.sso_account_id.getD "",
              values.sso_role_name.getD "", strOr values.sso_region "us-east-1",
              values.region, none⟩
      else none := by
  rcases values with ⟨u, a, r, sreg, re, ss⟩
  cases u with
  | none => simp [legacyProfileEntry, strTruthy]
  | some u =>
    cases a with
    | none => simp [legacyProfileEntry, strTruthy]
    | some a =>
      cases r with
      | none => simp [legacyProfileEntry, strTruthy]
      | some r =>
        by_cases hu : u = "" <;> by_cases ha : a = "" <;> by_cases hr : r = "" <;>
          simp [legacyProfileEntry, strTruthy, hu, ha, hr]

/-- The session branch in declarative form: an entry is produced exactly
when the session exists and account id and role name are truthy. -/
theorem sessionProfileEntry_eq (sessions : String → Option ConfigSection)
    (values : ConfigSection) (pn ssn : String) :
    sessionProfileEntry sessions values pn ssn =
      if (sessions ssn).isSome && strTruthy values.sso_account_id
          && strTruthy values.sso_role_name then
        some ⟨pn, strOr ((sessions ssn).bind ConfigSection.sso_start_url) "",
              values.sso_account_id.getD "", values.sso_role_name.getD "",
              strOr ((sessions ssn).bind ConfigSection.sso_region) "us-east-1",
              values.region, some ssn⟩
      else none := by
  cases hsess : sessions ssn with
  | none => simp [sessionProfileEntry, hsess]
  | some session =>
    cases ha : values.sso_account_id with
    | none => simp [sessionProfileEntry, hsess, ha, strTruthy]
    | some a =>
      cases hr : values.sso_role_name with
      | none => simp [sessionProfileEntry, hsess, ha, hr, strTruthy]
      | some r =>
        by_cases hae : a = "" <;> by_cases hre : r = "" <;>
          simp [sessionProfileEntry, hsess, ha, hr, strTruthy, hae, hre]

/-- `discoverEntry` produces an entry exactly on the qualifying sections,
and then produces `mkDiscovered`. -/
theorem discoverEntry_eq (sessions : String → Option ConfigSection)
    (sv : String × ConfigSection) :
    discoverEntry sessions sv =
      if codeQualifies sessions sv then some (mkDiscovered sessions sv) else none := by
  obtain ⟨name, values⟩ := sv
  by_cases hh : (jsStartsWith name "profile " || name == "default") = true
  · cases hs : values.sso_session with
    | none =>
      simp [discoverEntry, codeQualifies, mkDiscovered, hs, hh, legacyProfileEntry_eq]
    | some ssn =>
      by_cases hssn : ssn = "" <;>
        simp [discoverEntry, codeQualifies, mkDiscovered, hs, hh, hssn,
          legacyProfileEntry_eq, sessionProfileEntry_eq]
  · simp [discoverEntry, codeQualifies, hh]

/-- `discoverProfiles` equals filtering the config by `codeQualifies` and
mapping `mkDiscovered`, in source order. -/
theorem discoverProfiles_filter_map (config : List (String × ConfigSection)) :
    discoverProfiles config =
      (config.filter (codeQualifies (sessionsOf config))).map
        (mkDiscovered (sessionsOf config)) := by
  unfold discoverProfiles
  generalize sessionsOf config = S
  induction config with
  | nil => rfl
  | cons x xs ih =>
    by_cases hq : codeQualifies S x = true
    · simp [List.filterMap_cons, List.filter_cons, discoverEntry_eq, hq, ih]
    · simp [List.filterMap_cons, List.filter_cons, discoverEntry_eq, hq, ih]

-- ───────────────────────────────────────────────────────────────────────
-- Claim C4
-- ───────────────────────────────────────────────────────────────────────

/-- Claim C4: for every cache record whose `expiresAt` lies in the past
but which contains an access token and an expiry, `findCachedToken`
still returns the record (no expiry filtering), while `refreshProfile`
classifies that profile — and any profile whose cached token is absent
or not strictly in the future — as needing login. -/
theorem C4_stale_cache_returned_refresh_needs_login
    (hash : String → String) (fs : String → Option CacheFile)
    (getCreds : SSOProfile → String → Option AWSCredentials) (now : Nat)
    (p q : SSOProfile) (file : CacheFile) (a : String) (e : Nat)
    (hfile : fs (cacheFileName hash p) = some file)
    (ha : file.accessToken = some a) (hne : a ≠ "")
    (he : file.expiresAt = some e) (hpast : e ≤ now)
    (hq : ∀ tok, findCachedToken hash fs q = some tok → tok.expiresAt ≤ now) :
    findCachedToken hash fs p = some ⟨a, e⟩
    ∧ (refreshProfile hash fs getCreds now p).1.needsLogin = true
    ∧ (refreshProfile hash fs getCreds now q).1.needsLogin = true := by
  have hfind : findCachedToken hash fs p = some ⟨a, e⟩ := by
    simp [findCachedToken, hfile, ha, he, hne]
  refine ⟨hfind, ?_, ?_⟩
  · simp [refreshProfile, hfind, hpast]
  · cases hq2 : findCachedToken hash fs q with
    | none => simp [refreshProfile, hq2]
    | some tok => simp [refreshProfile, hq2, hq tok hq2]

/-- Witness for C4: a stale record (expiry 5, clock 10) under key `u1`
is still returned by `findCachedToken`, and both that profile and a
profile with no cache entry are classified as needing login. -/
theorem C4_stale_cache_witness :
    fsStale (cacheFileName hashId profileU1) = some ⟨some "u1", some "us-east-1", some "tok", some 5⟩
    ∧ (5 : Nat) ≤ 10
    ∧ (findCachedToken hashId fsStale profileU1 = some ⟨"tok", 5⟩
       ∧ (refreshProfile hashId fsStale getCredsNone 10 profileU1).1.needsLogin = true
       ∧ (refreshProfile hashId fsStale getCredsNone 10 profileU2).1.needsLogin = true) := by
  have hq : ∀ tok : CachedToken, findCachedToken hashId fsStale profileU2 = some tok →
      tok.expiresAt ≤ 10 := by
    intro tok h
    have hnone : findCachedToken hashId fsStale profileU2 = none := by decide
    rw [hnone] at h
    exact Option.noConfusion h
  exact ⟨by decide, by decide,
    C4_stale_cache_returned_refresh_needs_login hashId fsStale getCredsNone 10
      profileU1 profileU2 ⟨some "u1", some "us-east-1", some "tok", some 5⟩ "tok" 5
      (by decide) rfl (by decide) rfl (by decide) hq⟩

-- ───────────────────────────────────────────────────────────────────────
-- Claim C10
-- ───────────────────────────────────────────────────────────────────────

/-- Claim C10: when `refreshProfile` finds a structurally valid, unexpired
cached token but the exchange for role credentials fails, it returns
`success: false` with `needsLogin: true` and no distinct exchange error. -/
theorem C10_exchange_failure_folded_into_needs_login
    (hash : String → String) (fs : String → Option CacheFile)
    (getCreds : SSOProfile → String → Option AWSCredentials) (now : Nat)
    (p : SSOProfile) (tok : CachedToken)
    (hfind : findCachedToken hash fs p = some tok)
    (hvalid : now < tok.expiresAt)
    (hx : getCreds p tok.accessToken = none) :
    (refreshProfile hash fs getCreds now p).1 = ⟨false, none, true⟩ := by
  have h1 : ¬ tok.expiresAt ≤ now := by omega
  simp [refreshProfile, hfind, h1, hx]

/-- Witness for C10: a live token (expiry 100, clock 10) whose exchange
fails yields `{ success: false, needsLogin: true }`. -/
theorem C10_exchange_failure_witness :
    findCachedToken hashId fsLive profileU1 = some ⟨"tok", 100⟩
    ∧ (10 : Nat) < 100
    ∧ (refreshProfile hashId fsLive getCredsNone 10 profileU1).1 = ⟨false, none, true⟩ :=
  ⟨by decide, by decide,
    C10_exchange_failure_folded_into_needs_login hashId fsLive getCredsNone 10
      profileU1 ⟨"tok", 100⟩ (by decide) (by decide) rfl⟩

-- ───────────────────────────────────────────────────────────────────────
-- Claim C5
-- ───────────────────────────────────────────────────────────────────────

/-- Counterexample to claim C5 as stated: saving a token whose access
token is the empty string succeeds, but `findCachedToken` then returns
`null` (the `content.accessToken` truthiness check fails on `""`), not
the saved record. -/
theorem C5_empty_token_roundtrip_fails :
    findCachedToken hashId
        (saveSSOTokenToCache hashId (fun _ => none) profileU1 emptyToken) profileU1
      ≠ some ⟨emptyToken.accessToken, emptyToken.expiresAt⟩ := by
  decide

/-- Claim C5 (amended: the saved access token must be non-empty, since
the reader's JavaScript truthiness check rejects `""`): both functions
derive the file name from the same key, so saving and re-reading yields
exactly the saved access token and expiry. -/
theorem C5_cache_roundtrip (hash : String → String) (fs : String → Option CacheFile)
    (p : SSOProfile) (tok : TokenInfo) (ht : tok.accessToken ≠ "") :
    findCachedToken hash (saveSSOTokenToCache hash fs p tok) p =
      some ⟨tok.accessToken, tok.expiresAt⟩ := by
  simp [findCachedToken, saveSSOTokenToCache, ht]

/-- Witness for C5: a non-empty token round-trips through the cache. -/
theorem C5_cache_roundtrip_witness :
    (⟨"t9", 999⟩ : TokenInfo).accessToken ≠ ""
    ∧ findCachedToken hashId
        (saveSSOTokenToCache hashId (fun _ => none) profileU1 ⟨"t9", 999⟩) profileU1
      = some ⟨"t9", 999⟩ :=
  ⟨by decide, C5_cache_roundtrip hashId (fun _ => none) profileU1 ⟨"t9", 999⟩ (by decide)⟩

-- ───────────────────────────────────────────────────────────────────────
-- Claim C6
-- ───────────────────────────────────────────────────────────────────────

/-- Counterexample to claim C6 as stated: credentials whose session token
is the empty string ("creds has one") are written without an
`aws_session_token` key, because the `...(sessionToken && { ... })`
spread is falsy on `""`. -/
theorem C6_empty_session_token_dropped :
    emptySessionCreds.sessionToken.isSome = true
    ∧ (writeCredentials (fun _ => none) "P" emptySessionCreds "P").map
        (fun sec => sec "aws_session_token") = some none :=
  ⟨rfl, by decide⟩

/-- Claim C6 (amended: the session-token key is present iff the
credentials carry a non-empty session token — JavaScript truthiness):
after `writeCredentials P creds`, section `P` holds exactly the written
access key id, secret key and truthy session token, and every other
section and every other key is unchanged/absent. -/
theorem C6_write_credentials_roundtrip_frame (store : CredStore) (P : String)
    (c : AWSCredentials) (q k : String) (hq : q ≠ P)
    (h1 : k ≠ "aws_access_key_id") (h2 : k ≠ "aws_secret_access_key")
    (h3 : k ≠ "aws_session_token") :
    writeCredentials store P c q = store q
    ∧ (writeCredentials store P c P).map (fun sec => sec "aws_access_key_id")
        = some (some c.accessKeyId)
    ∧ (writeCredentials store P c P).map (fun sec => sec "aws_secret_access_key")
        = some (some c.secretAccessKey)
    ∧ (writeCredentials store P c P).map (fun sec => sec "aws_session_token")
        = some (truthyOpt c.sessionToken)
    ∧ (writeCredentials store P c P).map (fun sec => sec k) = some none := by
  refine ⟨?_, ?_, ?_, ?_, ?_⟩
  · simp [writeCredentials, hq]
  · simp [writeCredentials]
  · simp [writeCredentials]
  · simp [writeCredentials]
  · simp [writeCredentials, h1, h2, h3]

/-- Witness for C6: a concrete write with a non-empty session token
round-trips and leaves another section untouched. -/
theorem C6_write_credentials_witness :
    ("Q" : String) ≠ "P"
    ∧ (writeCredentials (fun _ => none) "P" ⟨"AK", "SK", some "ST", none⟩ "Q"
          = (fun _ => none : CredStore) "Q"
       ∧ (writeCredentials (fun _ => none) "P" ⟨"AK", "SK", some "ST", none⟩ "P").map
            (fun sec => sec "aws_access_key_id") = some (some "AK")
       ∧ (writeCredentials (fun _ => none) "P" ⟨"AK", "SK", some "ST", none⟩ "P").map
            (fun sec => sec "aws_secret_access_key") = some (some "SK")
       ∧ (writeCredentials (fun _ => none) "P" ⟨"AK", "SK", some "ST", none⟩ "P").map
            (fun sec => sec "aws_session_token") = some (truthyOpt (some "ST"))
       ∧ (writeCredentials (fun _ => none) "P" ⟨"AK", "SK", some "ST", none⟩ "P").map
            (fun sec => sec "other") = some none) :=
  ⟨by decide,
    C6_write_credentials_roundtrip_frame (fun _ => none) "P" ⟨"AK", "SK", some "ST", none⟩
      "Q" "other" (by decide) (by decide) (by decide) (by decide)⟩

-- ───────────────────────────────────────────────────────────────────────
-- Claim C8
-- ───────────────────────────────────────────────────────────────────────

/-- Counterexample to claim C8 as stated: an inline profile section with
start URL, account id and role name but no `sso_region` is discovered by
the code (region defaults to `us-east-1`), yet the claim's predicate —
which demands all four inline fields — excludes it. -/
theorem C8_inline_region_not_required :
    discoverProfiles configNoRegion = [⟨"y", "u", "acc", "role", "us-east-1", none, none⟩]
    ∧ configNoRegion.filter (specQualifies (sessionsOf configNoRegion)) = [] := by
  constructor <;> decide

/-- Claim C8 (amended: the code does not require the session block to
carry a start URL or region — they default to `""` and `"us-east-1"` —
and does not require an inline region): a section is discovered exactly
when it is the default or a profile-prefixed section and either its
truthy `sso_session` resolves to an existing session block and it
carries truthy account id and role name, or it carries truthy inline
start URL, account id and role name; qualifying sections are emitted in
source order and all others are silently dropped. -/
theorem C8_discovery_exactly_qualifying (config : List (String × ConfigSection)) :
    discoverProfiles config =
      (config.filter (codeQualifies (sessionsOf config))).map
        (mkDiscovered (sessionsOf config)) :=
  discoverProfiles_filter_map config

-- ───────────────────────────────────────────────────────────────────────
-- Claim C7
-- ───────────────────────────────────────────────────────────────────────

/-- Counterexample to claim C7 as stated: when profile `b` needs a login
but `startDeviceAuthorization` resolves to `null`, the `useDeviceAuth`
hook never fires `onLoginComplete`, so the cycle stalls — only `a`
receives a result, and `b` and `c` are never recorded. -/
theorem C7_stalled_login_blocks_rest :
    (refreshCycle refreshABC loginNever [profileA, profileB, profileC]).1.map
        ProfileOutcome.name = ["a"]
    ∧ ¬ ((refreshCycle refreshABC loginNever [profileA, profileB, profileC]).1.map
          ProfileOutcome.name = [profileA, profileB, profileC].map SSOProfile.name) := by
  constructor <;> decide

/-- Claim C7 (amended: provided the login flow's completion callback
fires for every profile that needs a login, i.e. device-authorization
start succeeds): every profile receives exactly one per-profile result
in order, the cycle finishes, and in the `[a, b, c]` scenario with `b`'s
login denied, `a` and `c` succeed while `b` is recorded with the flow's
failure message — no early abort. -/
theorem C7_orchestrator_isolation (refresh : SSOProfile → RefreshResult)
    (login : SSOProfile → Option FlowResult) (profiles : List SSOProfile)
    (hlogin : ∀ p, (login p).isSome = true) :
    ((refreshCycle refresh login profiles).1.map ProfileOutcome.name
        = profiles.map SSOProfile.name
     ∧ (refreshCycle refresh login profiles).2 = true)
    ∧ refreshCycle refreshABC loginDeniedABC [profileA, profileB, profileC] =
        ([⟨"a", true, none⟩, ⟨"b", false, some "Authorization failed or timed out"⟩,
          ⟨"c", true, none⟩], true) := by
  refine ⟨?_, ?_⟩
  · induction profiles with
    | nil => exact ⟨rfl, rfl⟩
    | cons p rest ih =>
      obtain ⟨ih1, ih2⟩ := ih
      have hp := hlogin p
      cases hl : login p with
      | none => rw [hl] at hp; exact absurd hp (by simp)
      | some lr =>
        cases hn : (refresh p).needsLogin
        · exact ⟨by simp [refreshCycle, hl, hn, ih1], by simp [refreshCycle, hl, hn, ih2]⟩
        · exact ⟨by simp [refreshCycle, hl, hn, ih1], by simp [refreshCycle, hl, hn, ih2]⟩
  · decide

/-- Witness for C7: an always-completing login environment (trivially on
an empty profile list) together with the concrete denied-`b` scenario. -/
theorem C7_orchestrator_isolation_witness :
    ((refreshCycle (fun _ => ⟨true, none, false⟩) (fun _ => some ⟨true, none⟩)
          ([] : List SSOProfile)).1.map ProfileOutcome.name
        = ([] : List SSOProfile).map SSOProfile.name
     ∧ (refreshCycle (fun _ => ⟨true, none, false⟩) (fun _ => some ⟨true, none⟩)
          ([] : List SSOProfile)).2 = true)
    ∧ refreshCycle refreshABC loginDeniedABC [profileA, profileB, profileC] =
        ([⟨"a", true, none⟩, ⟨"b", false, some "Authorization failed or timed out"⟩,
          ⟨"c", true, none⟩], true) :=
  C7_orchestrator_isolation (fun _ => ⟨true, none, false⟩) (fun _ => some ⟨true, none⟩)
    [] (fun _ => rfl)

-- ───────────────────────────────────────────────────────────────────────
-- Claim C1
-- ───────────────────────────────────────────────────────────────────────

/-- Claim C1: with base interval 5 s and provider responses
`[pending, pending, slow down, success]`, the loop sleeps 5 s, 5 s and
10 s after the first three attempts and returns the access token of the
fourth attempt (whose expiry is `now + (expiresIn || 28800) s`). -/
theorem C1_polling_backoff_sequence (R : Nat → PollResponse) (d : DeviceAuthInfo)
    (t : Nat) (a : String) (ex : Option Nat) (hint : d.interval = 5)
    (h0 : R 0 = PollResponse.errPending) (h1 : R 1 = PollResponse.errPending)
    (h2 : R 2 = PollResponse.errSlowDown) (h3 : R 3 = PollResponse.ok (some a) ex)
    (ha : a ≠ "") (hw : 20000 < d.expiresAt - t) :
    pollForToken R d t =
      some (PollOutcome.token ⟨a, t + 20000 + jsOr ex 28800 * 1000⟩,
            [5000, 5000, 10000]) := by
  unfold pollForToken
  rw [hint]
  obtain ⟨g, hg⟩ : ∃ g, d.expiresAt - t + 2 = g + 4 := ⟨d.expiresAt - t - 2, by omega⟩
  rw [hg]
  refine (pollLoop_step_pending R 5 (d.expiresAt - t) t (g + 3) 0 0 [] (by omega) h0).trans ?_
  refine (pollLoop_step_pending R 5 (d.expiresAt - t) t (g + 2) 5000 1 [5000]
    (by omega) h1).trans ?_
  refine (pollLoop_step_slowDown R 5 (d.expiresAt - t) t (g + 1) 10000 2 [5000, 5000]
    (by omega) h2).trans ?_
  exact pollLoop_step_success R 5 (d.expiresAt - t) t g 20000 3 [10000, 5000, 5000] a ex
    (by omega) h3 ha

/-- Witness for C1: the concrete session with a 600 s budget and the
pending-pending-slow-down-success provider. -/
theorem C1_polling_backoff_witness :
    deviceAuth600.interval = 5
    ∧ (20000 : Nat) < deviceAuth600.expiresAt - 0
    ∧ pollForToken respC1 deviceAuth600 0 =
        some (PollOutcome.token ⟨"tok", 28820000⟩, [5000, 5000, 10000]) :=
  ⟨rfl, by decide,
    C1_polling_backoff_sequence respC1 deviceAuth600 0 "tok" none rfl rfl rfl rfl rfl
      (by decide) (by decide)⟩

-- ───────────────────────────────────────────────────────────────────────
-- Claim C2
-- ───────────────────────────────────────────────────────────────────────

/-- Counterexample to claim C2 as stated: after a slow-down response the
next authorization-pending sleep is the base 5 s again, not 10 s — the
code sleeps `(interval + 5)` only in the slow-down iteration and never
mutates `deviceAuth.interval`, so the increase is not sticky. -/
theorem C2_slowdown_increase_not_sticky :
    pollForToken respC2 deviceAuth600 0 =
      some (PollOutcome.token ⟨"tok", 28815000⟩, [10000, 5000])
    ∧ (pollForToken respC2 deviceAuth600 0).map Prod.snd ≠ some [10000, 10000] := by
  constructor <;> decide

/-- Claim C2 (amended: the 5 s increase applies only to the iteration
that received the slow-down response — the code never mutates
`deviceAuth.interval`): in every completed polling run, each recorded
sleep is determined by its own attempt's response alone, `interval`
seconds after authorization-pending and `interval + 5` seconds after
slow-down, so a pending sleep after an earlier slow-down uses the base
interval again. -/
theorem C2_slowdown_single_iteration (R : Nat → PollResponse) (d : DeviceAuthInfo)
    (t : Nat) (r : PollOutcome) (sleeps : List Nat)
    (h : pollForToken R d t = some (r, sleeps)) :
    ∃ n, sleeps = (List.range n).filterMap (fun j => responseSleep d.interval (R j)) := by
  unfold pollForToken at h
  obtain ⟨n, hn⟩ := pollLoop_trace_shape R d.interval (d.expiresAt - t) t
    (d.expiresAt - t + 2) 0 0 [] r sleeps h
  refine ⟨n, ?_⟩
  rw [List.range_eq_range']
  simpa using hn

/-- Witness for C2 (amended): the slow-down, pending, success run with
base interval 5 completes with sleep trace `[10000, 5000]` — the
post-slow-down pending sleep is the base 5 s — and that trace is the
per-attempt `responseSleep` image of the responses. -/
theorem C2_slowdown_single_iteration_witness :
    pollForToken respC2 deviceAuth600 0 =
      some (PollOutcome.token ⟨"tok", 28815000⟩, [10000, 5000])
    ∧ ∃ n, [10000, 5000] = (List.range n).filterMap
        (fun j => responseSleep deviceAuth600.interval (respC2 j)) :=
  ⟨by decide,
    C2_slowdown_single_iteration respC2 deviceAuth600 0
      (PollOutcome.token ⟨"tok", 28815000⟩) [10000, 5000] (by decide)⟩

-- ───────────────────────────────────────────────────────────────────────
-- Claim C3
-- ───────────────────────────────────────────────────────────────────────

/-- Claim C3: as long as the provider only answers pending or slow down,
the loop terminates (the fuel of the model is never exhausted, since the
interval is at least one second — `startDeviceAuthorization_interval_pos`
shows every real session satisfies that) and exits through the
wall-clock check, i.e. through the `Expired` return site, not through a
failure return — including when the expiry falls exactly between two
attempts. -/
theorem C3_poll_expiry_timed_out (R : Nat → PollResponse) (d : DeviceAuthInfo)
    (now : Nat) (hi : 1 ≤ d.interval)
    (hR : ∀ k, R k = PollResponse.errPending ∨ R k = PollResponse.errSlowDown) :
    (pollForToken R d now).map Prod.fst = some PollOutcome.timedOut := by
  obtain ⟨sl, hsl⟩ := pollLoop_pending_timedOut R d.interval (d.expiresAt - now) now hi hR
    (d.expiresAt - now + 2) 0 0 [] (by omega)
  unfold pollForToken
  rw [hsl]
  rfl

/-- Witness for C3, at the exact boundary: a 10 s budget with 5 s
interval reaches the expiry exactly after the second sleep and exits
timed out. -/
theorem C3_poll_expiry_witness :
    1 ≤ deviceAuth10s.interval
    ∧ (pollForToken (fun _ => PollResponse.errPending) deviceAuth10s 0).map Prod.fst
        = some PollOutcome.timedOut :=
  ⟨by decide,
    C3_poll_expiry_timed_out (fun _ => PollResponse.errPending) deviceAuth10s 0
      (by decide) (fun _ => Or.inl rfl)⟩

-- ───────────────────────────────────────────────────────────────────────
-- Claim C9
-- ───────────────────────────────────────────────────────────────────────

/-- Counterexample to claim C9 as stated: a successful token exchange
whose response carries `expiresIn: 0` gets expiry `now + 28800 s` from
the code (`expiresIn || 28800`), while the claim's formula
`now + (expiresIn ?? 28800) s` would give `now + 0`. -/
theorem C9_zero_expiresIn_still_defaults :
    (pollForToken respZeroExpiry deviceAuth600 0).map Prod.fst
      = some (PollOutcome.token ⟨"t", 28800000⟩)
    ∧ (pollForToken respZeroExpiry deviceAuth600 0).map Prod.fst
      ≠ some (PollOutcome.token ⟨"t", 0 + 0 * 1000⟩) := by
  constructor <;> decide

/-- Claim C9 (amended: the defaults follow JavaScript `||`, applying when
the field is absent or zero): `startDeviceAuthorization` sets the
session expiry to `now + (expiresIn || 600) s` and the poll interval to
`interval || 5`, and a successful exchange sets the token expiry to
`now + (expiresIn || 28800) s` (8 h when absent or zero). -/
theorem C9_device_auth_defaults (reg : RegisterResponse) (auth : StartAuthResponse)
    (now : Nat) (R : Nat → PollResponse) (d : DeviceAuthInfo) (t : Nat)
    (a : String) (ex : Option Nat)
    (hreg : (strTruthy reg.clientId && strTruthy reg.clientSecret) = true)
    (hauth : (strTruthy auth.verificationUriComplete && strTruthy auth.deviceCode
        && strTruthy auth.userCode) = true)
    (h0 : R 0 = PollResponse.ok (some a) ex) (ha : a ≠ "")
    (hw : 0 < d.expiresAt - t) :
    (startDeviceAuthorization reg auth now).map DeviceAuthInfo.expiresAt
      = some (now + jsOr auth.expiresIn 600 * 1000)
    ∧ (startDeviceAuthorization reg auth now).map DeviceAuthInfo.interval
      = some (jsOr auth.interval 5)
    ∧ (pollForToken R d t).map Prod.fst
      = some (PollOutcome.token ⟨a, t + jsOr ex 28800 * 1000⟩) := by
  refine ⟨?_, ?_, ?_⟩
  · unfold startDeviceAuthorization
    rw [if_pos hreg, if_pos hauth]
    rfl
  · unfold startDeviceAuthorization
    rw [if_pos hreg, if_pos hauth]
    rfl
  · unfold pollForToken
    obtain ⟨g, hg⟩ : ∃ g, d.expiresAt - t + 2 = g + 1 := ⟨d.expiresAt - t + 1, by omega⟩
    rw [hg]
    rw [pollLoop_step_success R d.interval (d.expiresAt - t) t g 0 0 [] a ex
      (by omega) h0 ha]
    rfl

/-- Witness for C9 (amended): a registration and device-authorization
response with no `expiresIn` and `interval: 7` yields expiry
`now + 600 s` and interval 7, and a token response with `expiresIn: 0`
yields the 8 h default. -/
theorem C9_device_auth_defaults_witness :
    (strTruthy (some "cid") && strTruthy (some "sec")) = true
    ∧ ((startDeviceAuthorization ⟨some "cid", some "sec"⟩
          ⟨some "vuri", some "dcode", some "ucode", none, some 7⟩ 100).map
            DeviceAuthInfo.expiresAt = some 600100
       ∧ (startDeviceAuthorization ⟨some "cid", some "sec"⟩
            ⟨some "vuri", some "dcode", some "ucode", none, some 7⟩ 100).map
              DeviceAuthInfo.interval = some 7
       ∧ (pollForToken respZeroExpiry deviceAuth600 0).map Prod.fst
           = some (PollOutcome.token ⟨"t", 28800000⟩)) :=
  ⟨by decide,
    C9_device_auth_defaults ⟨some "cid", some "sec"⟩
      ⟨some "vuri", some "dcode", some "ucode", none, some 7⟩ 100 respZeroExpiry
      deviceAuth600 0 "t" (some 0) (by decide) (by decide) rfl (by decide) (by decide)⟩
